import Mathlib

/-!
Shallow embedding of the `nearby` Fast Pair discovery/pairing utility
(`fastpair/rust/src`): the address model, the Windows BLE adapter's
scan/stop/next-device logic, the callback-to-channel bridge, the discovery
loop from `main.rs`, and `ClassicDevice`/`BleDevice` pairing.
Machine integers (u64 addresses, u16 uuids, u8 payload bytes) are modelled
as `Nat`; no claim depends on overflow. Platform calls that can only fail
for environmental reasons (WinRT getters) are modelled as total; platform
outcomes that the control flow branches on (materialisation success, name
lookup, pairing status) are carried as explicit oracle fields of the event
or device record.
-/

namespace Nearby

/-- Kind of a BLE address.  Modelled from the spec: the `common` module's
`BleAddressKind` (`Public`/`Random`; an `Unspecified` kind is not
representable) is declared in a `common` source file not present under
`src/`, but its two variants are fixed by
`src/bluetooth/windows/address.rs` and the spec's data model. -/
inductive BleAddressKind
  | public
  | random
  deriving DecidableEq, Repr

/-- A BLE address: 64-bit numeric value plus kind.  Modelled from the spec:
`Ble{value: u64, kind: Public|Random}`; the defining `common` source file is
not under `src/`, but `BleAddress::new(addr, kind)` is the constructor used
by `src/bluetooth/windows/adapter.rs`. -/
structure BleAddress where
  value : Nat
  kind : BleAddressKind
  deriving DecidableEq, Repr

/-- A Classic Bluetooth address.  Modelled from the spec:
`Classic{value: u48-ish integer}`. -/
structure ClassicAddress where
  value : Nat
  deriving DecidableEq, Repr

/-- `Address`: tagged union of BLE and Classic addresses
(`crate::bluetooth::common::Address`). -/
inductive Address
  | ble (a : BleAddress)
  | classic (a : ClassicAddress)
  deriving DecidableEq, Repr

/-- `ServiceData<u16>` from `src/bluetooth/common/data.rs`: a 16-bit uuid
together with an opaque byte payload. -/
structure ServiceData where
  uuid : Nat
  data : List Nat
  deriving DecidableEq, Repr

/-- `ServiceData::get_uuid`. -/
def ServiceData.get_uuid (s : ServiceData) : Nat := s.uuid

/-- The Windows `BluetoothAddressType` enumeration as matched by
`src/bluetooth/windows/address.rs`: `Public`, `Random`, `Unspecified`, and
(since WinRT enums are open) any other raw value. -/
inductive BluetoothAddressType
  | Public
  | Random
  | Unspecified
  | unknown (v : Int)
  deriving DecidableEq, Repr

/-- `TryFrom<BluetoothAddressType> for BleAddressKind`
(`src/bluetooth/windows/address.rs` lines 25-38): `Public`/`Random` map
through; `Unspecified` and any unrecognized value are errors. -/
def BleAddressKind.tryFrom : BluetoothAddressType → Except String BleAddressKind
  | .Public => .ok .public
  | .Random => .ok .random
  | .Unspecified =>
      .error "Attempting to construct BleAddressKind with device advertising Unspecified address type."
  | .unknown _ =>
      .error "Attempting to construct BleAddressKind with device advertising invalid address type."

/-- The Windows `BluetoothLEAdvertisementType` enumeration; the adapter only
distinguishes `NonConnectableUndirected` from everything else. -/
inductive BluetoothLEAdvertisementType
  | ConnectableUndirected
  | ConnectableDirected
  | ScannableUndirected
  | NonConnectableUndirected
  | Extended
  | unknown (v : Int)
  deriving DecidableEq, Repr

/-- Result of a Rust expression that may `panic!`/`unimplemented!` instead of
returning: either a panic with its message, or a normal return value. -/
inductive PanicOr (α : Type)
  | panics (msg : String)
  | returns (a : α)
  deriving DecidableEq, Repr

/-- `BluetoothLEAdvertisementReceivedEventArgs` as consumed by
`BleAdapter::next_device`, together with the per-event platform-oracle
outcomes the control flow branches on: whether
`BleDevice::new`/`FromBluetoothAddress...Async` succeeds for this event's
address (`materializeOk`), and what `inner.Name()` would return for the
materialised device (`nameRes`).  `serviceData` is the advertisement's
service-data section stored into the device by `BleDevice::new(addr,
service_data)` (`src/bluetooth/windows/device.rs` lines 60-70). -/
structure ReceivedEventArgs where
  advType : BluetoothLEAdvertisementType
  addrType : BluetoothAddressType
  address : Nat
  serviceData : List ServiceData
  materializeOk : Bool
  nameRes : Except String String
  deriving Repr

/-- `BleDevice` (`src/bluetooth/windows/device.rs` lines 46-50): BLE address,
the advertisement's service data, and the platform name-lookup outcome
standing in for the `BluetoothLEDevice` handle. -/
structure BleDevice where
  addr : BleAddress
  service_data : List ServiceData
  nameRes : Except String String
  deriving Repr

/-- `BleDevice::name` (`Device` impl): returns `inner.Name()`. -/
def BleDevice.name (d : BleDevice) : Except String String := d.nameRes

/-- `BleDevice::address`: wraps the BLE address in the `Address` union. -/
def BleDevice.address (d : BleDevice) : Address := .ble d.addr

/-- `BleDevice::get_service_data`: returns the stored service data. -/
def BleDevice.get_service_data (d : BleDevice) : List ServiceData := d.service_data

/-- `BleDevice::pair` (`src/bluetooth/windows/device.rs` lines 83-89):
`unimplemented!("BLE Pairing is currently unsupported.")` — a panic, for
every receiver. -/
def BleDevice.pair (_d : BleDevice) : PanicOr (Except String Unit) :=
  .panics "BLE Pairing is currently unsupported."

/-- The Windows `DevicePairingKinds` values a pairing challenge can carry. -/
inductive DevicePairingKinds
  | NoneKind
  | ConfirmOnly
  | DisplayPin
  | ProvidePin
  | ConfirmPinMatch
  | ProvidePasswordCredential
  | unknown (v : Int)
  deriving DecidableEq, Repr

/-- The Windows `DevicePairingResultStatus` enumeration returned by
`PairAsync` (matched at `src/bluetooth/windows/device.rs` lines 162-168). -/
inductive DevicePairingResultStatus
  | Paired
  | NotReadyToPair
  | NotPaired
  | AlreadyPaired
  | ConnectionRejected
  | TooManyConnections
  | HardwareFailure
  | AuthenticationTimeout
  | AuthenticationNotAllowed
  | AuthenticationFailure
  | NoSupportedProfiles
  | ProtectionLevelCouldNotBeMet
  | AccessDenied
  | InvalidCeremonyData
  | PairingCanceled
  | OperationAlreadyInProgress
  | RequiredHandlerNotRegistered
  | RejectedByHandler
  | RemoteDeviceHasAssociation
  | Failed
  | unknown (v : Int)
  deriving DecidableEq, Repr

/-- `DevicePairingRequestedEventArgs`: the challenge delivered to the
registered `PairingRequested` handler, carrying its pairing kind. -/
structure DevicePairingRequestedEventArgs where
  pairingKind : DevicePairingKinds
  deriving DecidableEq, Repr

/-- What the `PairingRequested` handler closure does with a challenge:
`accepted` models the `event_args.Accept()` call; the `ignored…` variants
model the branches that `warn!` and return `Ok(())` without accepting. -/
inductive HandlerAction
  | accepted
  | ignoredUnsupported (kind : DevicePairingKinds)
  | ignoredEmpty
  deriving DecidableEq, Repr

/-- The `PairingRequested` handler closure of `ClassicDevice::pair`
(`src/bluetooth/windows/device.rs` lines 131-151): on `Some` args, accept
iff the kind is `ConfirmOnly`, otherwise warn about the unsupported kind and
return `Ok(())`; on `None` args, warn and return `Ok(())`. -/
def pairingRequestedHandler :
    Option DevicePairingRequestedEventArgs → HandlerAction
  | some args =>
      match args.pairingKind with
      | .ConfirmOnly => .accepted
      | k => .ignoredUnsupported k
  | none => .ignoredEmpty

/-- Typed pairing error carrying the terminal platform status, standing in
for `anyhow::anyhow!("Error while pairing: {:?}", status)`. -/
inductive PairingErr
  | pairingFailed (status : DevicePairingResultStatus)
  deriving DecidableEq, Repr

/-- The terminal-status classification of `ClassicDevice::pair`
(`src/bluetooth/windows/device.rs` lines 162-168): `Paired` and
`AlreadyPaired` are success; any other status becomes the pairing error
carrying that status. -/
def mapPairingStatus : DevicePairingResultStatus → Except PairingErr Unit
  | .Paired => .ok ()
  | .AlreadyPaired => .ok ()
  | s => .error (.pairingFailed s)

/-- The `DeviceInformationPairing` facts `ClassicDevice::pair` branches on
(`IsPaired`, `CanPair`) together with the terminal status `PairAsync` would
report for this device. -/
structure PairingInfo where
  isPaired : Bool
  canPair : Bool
  pairStatus : DevicePairingResultStatus
  deriving DecidableEq, Repr

/-- `ClassicDevice` (`src/bluetooth/windows/device.rs` lines 53-56): Classic
address plus the platform pairing facts standing in for the
`BluetoothDevice` handle. -/
structure ClassicDevice where
  addr : ClassicAddress
  pairing : PairingInfo
  nameRes : Except String String
  deriving Repr

/-- `ClassicDevice::name`: returns `inner.Name()`. -/
def ClassicDevice.name (d : ClassicDevice) : Except String String := d.nameRes

/-- `ClassicDevice::address`. -/
def ClassicDevice.address (d : ClassicDevice) : Address := .classic d.addr

/-- `ClassicDevice::pair` (`src/bluetooth/windows/device.rs` lines 121-170),
returning the `Result` together with the lines it `println!`s: if already
paired, print "Device already paired" and return `Ok(())`; else if the
device cannot pair, print "Device can't pair" and return `Ok(())`; otherwise
register the challenge handler, run `PairAsync`, and classify its terminal
status via `mapPairingStatus`. -/
def ClassicDevice.pair (d : ClassicDevice) :
    Except PairingErr Unit × List String :=
  if d.pairing.isPaired then
    (.ok (), ["Device already paired"])
  else if !d.pairing.canPair then
    (.ok (), ["Device can't pair"])
  else
    (mapPairingStatus d.pairing.pairStatus, [])

/-- `ClassicDevice::get_service_data`
(`src/bluetooth/windows/device.rs` lines 172-174):
`unimplemented!("Service data is currently unsupported for Classic
devices.")` — a panic, for every receiver. -/
def ClassicDevice.get_service_data (_d : ClassicDevice) :
    PanicOr (List ServiceData) :=
  .panics "Service data is currently unsupported for Classic devices."

/-- The bounded mpsc channel from `BleAdapter::start_scan`
(`src/bluetooth/windows/adapter.rs` lines 111-118): `senderAlive` is whether
the strong `Arc` to the sender (held only by the `stopped_handler` closure)
is still alive, so that the `received_handler`'s weak-reference upgrade
succeeds; `queue` is the buffered events (capacity 16). -/
structure Channel where
  senderAlive : Bool
  queue : List ReceivedEventArgs
  deriving Repr

/-- A fresh channel as created by `futures::channel::mpsc::channel(16)`. -/
def Channel.new : Channel := { senderAlive := true, queue := [] }

/-- The `received_handler` closure (`src/bluetooth/windows/adapter.rs` lines
119-144): if the watcher argument is present and the event args are `Some`,
upgrade the weak sender reference; on success `try_send` the event (dropping
it with an error log when the bounded buffer is full), on failure (owning
sender already dropped) do nothing. -/
def received_handler (watcherPresent : Bool)
    (eventArgs : Option ReceivedEventArgs) (c : Channel) : Channel :=
  if watcherPresent then
    match eventArgs with
    | some ev =>
        if c.senderAlive then
          if c.queue.length < 16 then { c with queue := c.queue ++ [ev] }
          else c
        else c
    | none => c
  else c

/-- The `stopped_handler` closure (`src/bluetooth/windows/adapter.rs` lines
147-159): take and drop the owning sender, closing the channel. -/
def stopped_handler (c : Channel) : Channel := { c with senderAlive := false }

/-- A native watcher callback invocation: a `Received` event (with the
watcher argument and optional event args the platform passes) or a `Stopped`
event. -/
inductive NativeEvent
  | received (watcherPresent : Bool) (eventArgs : Option ReceivedEventArgs)
  | stopped

/-- Dispatch one native callback to its handler. -/
def stepEvent (c : Channel) : NativeEvent → Channel
  | .received w args => received_handler w args c
  | .stopped => stopped_handler c

/-- Run a sequence of native callbacks against the channel. -/
def runEvents (c : Channel) (evs : List NativeEvent) : Channel :=
  evs.foldl stepEvent c

/-- `AdListener` (`src/bluetooth/windows/adapter.rs` lines 61-66): the
watcher plus the receiver end of the channel; the watcher handle itself is
opaque here, so the listener is the channel state. -/
structure AdListener where
  channel : Channel
  deriving Repr

/-- `BleAdapter` (`src/bluetooth/windows/adapter.rs` lines 69-72): the
platform adapter (its one consulted capability bit) and the optional
listener installed by `start_scan`. -/
structure BleAdapter where
  isExtendedAdvertisingSupported : Bool
  listener : Option AdListener
  deriving Repr

/-- `BleAdapter::start_scan` (`src/bluetooth/windows/adapter.rs` lines
98-168): creates a fresh watcher and channel, registers the handlers, starts
the watcher, and installs the new listener — unconditionally overwriting
`self.listener` and returning `Ok(())`; there is no already-scanning
check. -/
def BleAdapter.start_scan (a : BleAdapter) :
    Except String Unit × BleAdapter :=
  (.ok (), { a with listener := some { channel := Channel.new } })

/-- `BleAdapter::stop_scan` (`src/bluetooth/windows/adapter.rs` lines
170-177): if a listener is installed, take it and stop the watcher; else
return the error "Device scanning hasn't started." -/
def BleAdapter.stop_scan (a : BleAdapter) :
    Except String Unit × BleAdapter :=
  match a.listener with
  | some _ => (.ok (), { a with listener := none })
  | none => (.error "Device scanning hasn't started.", a)

/-- `BleAdapter::next_device` (`src/bluetooth/windows/adapter.rs` lines
179-213), as a function of the sequence of events the receiver stream will
yield (an exhausted list models the closed, drained channel, whose
`stream.next()` returns `None`): loop pulling events; a
`NonConnectableUndirected` advertisement is skipped; otherwise the address
kind is parsed with `BleAddressKind::try_from`, whose error propagates (the
`?` operator) out of `next_device`; then `BleDevice::new` is attempted — on
failure the event is skipped with a warning, on success the device is
returned.  Returns the result together with the events still pending in the
stream. -/
def next_device :
    List ReceivedEventArgs → Except String BleDevice × List ReceivedEventArgs
  | [] => (.error "Event returned from stream is None.", [])
  | ev :: rest =>
    if ev.advType = .NonConnectableUndirected then
      next_device rest
    else
      match BleAddressKind.tryFrom ev.addrType with
      | .error e => (.error e, rest)
      | .ok kind =>
        if ev.materializeOk then
          (.ok { addr := { value := ev.address, kind := kind },
                 service_data := ev.serviceData,
                 nameRes := ev.nameRes }, rest)
        else
          next_device rest

/-- State of the discovery loop in `main` (`src/main.rs` lines 86-116):
the `addr_set` HashSet (modelled as the list of inserted addresses), the
shared `device_vec` catalogue, and the printed index `counter`. -/
structure LoopState where
  addr_set : List Address
  device_vec : List BleDevice
  counter : Nat

/-- The initial loop state: empty set, empty catalogue, counter 0. -/
def LoopState.init : LoopState := { addr_set := [], device_vec := [], counter := 0 }

/-- The body of `main`'s while-loop for one received device
(`src/main.rs` lines 99-115): scan the device's service data for a record
with uuid `0x2cfe`; if one exists, read the address, look up the name (the
`?` operator propagates a failure out of the whole loop), and if the address
is new, print the entry, append the device to the catalogue and bump the
counter; duplicate addresses are neither replaced nor re-announced. -/
def processDevice (st : LoopState) (d : BleDevice) :
    Except String LoopState :=
  if d.get_service_data.any (fun s => s.get_uuid = 0x2cfe) then
    match d.name with
    | .error e => .error e
    | .ok _name =>
        if d.address ∈ st.addr_set then .ok st
        else
          .ok { addr_set := d.address :: st.addr_set,
                device_vec := st.device_vec ++ [d],
                counter := st.counter + 1 }
  else
    .ok st

/-- Helper for termination of the discovery loop: when `next_device`
produces a device, the pending stream strictly shrank. -/
theorem next_device_ok_length :
    ∀ (events rest : List ReceivedEventArgs) (d : BleDevice),
      next_device events = (.ok d, rest) → rest.length < events.length := by
  intro events
  induction events with
  | nil => intro rest d h; simp [next_device] at h
  | cons ev tail ih =>
      intro rest d h
      rw [next_device] at h
      by_cases hadv : ev.advType = .NonConnectableUndirected
      · simp only [hadv, if_true] at h
        exact Nat.lt_trans (ih rest d h) (Nat.lt_succ_self _)
      · simp only [hadv, if_false] at h
        cases hk : BleAddressKind.tryFrom ev.addrType with
        | error e => rw [hk] at h; simp at h
        | ok kind =>
            rw [hk] at h
            by_cases hm : ev.materializeOk
            · simp only [hm, if_true] at h
              cases h
              exact Nat.lt_succ_self _
            · simp only [hm, if_false] at h
              exact Nat.lt_trans (ih rest d h) (Nat.lt_succ_self _)

/-- The discovery loop of `main` (`src/main.rs` lines 95-118):
`while let Ok(ble_device) = adapter.next_device().await { … }` — an error
from `next_device` (stream exhausted, or an address-kind parse failure) ends
the loop and `run` returns `Ok(())` ("Done scanning"); an error from the
loop body (the `name()?`) aborts `run` with that error. -/
def discoveryLoop (st : LoopState) (events : List ReceivedEventArgs) :
    LoopState × Except String Unit :=
  match h : next_device events with
  | (.error _, _) => (st, .ok ())
  | (.ok d, rest) =>
      match processDevice st d with
      | .error e => (st, .error e)
      | .ok st2 => discoveryLoop st2 rest
termination_by events.length
decreasing_by exact next_device_ok_length events rest d h

/-- Unfolding: on an exhausted stream the loop ends with `Ok(())`. -/
theorem discoveryLoop_nil (st : LoopState) :
    discoveryLoop st [] = (st, .ok ()) := by
  rw [discoveryLoop]
  simp [next_device]

/-- Unfolding equation for `discoveryLoop` in non-dependent-match form. -/
theorem discoveryLoop_eq (st : LoopState) (events : List ReceivedEventArgs) :
    discoveryLoop st events =
      match next_device events with
      | (.error _, _) => (st, .ok ())
      | (.ok d, rest) =>
          match processDevice st d with
          | .error e => (st, .error e)
          | .ok st2 => discoveryLoop st2 rest := by
  rw [discoveryLoop]
  rcases hnd : next_device events with ⟨res, rest⟩
  cases res <;> simp

/-- `next_device` skips a non-connectable-undirected advertisement. -/
theorem next_device_nonconn (ev : ReceivedEventArgs)
    (rest : List ReceivedEventArgs)
    (h : ev.advType = .NonConnectableUndirected) :
    next_device (ev :: rest) = next_device rest := by
  rw [next_device]; simp [h]

/-- `next_device` propagates an address-kind parse failure as an error,
leaving the rest of the stream pending. -/
theorem next_device_badkind (ev : ReceivedEventArgs)
    (rest : List ReceivedEventArgs) (e : String)
    (h : ev.advType ≠ .NonConnectableUndirected)
    (hk : BleAddressKind.tryFrom ev.addrType = .error e) :
    next_device (ev :: rest) = (.error e, rest) := by
  rw [next_device]; simp [h, hk]

/-- `next_device` yields the materialised device on a connectable,
parseable, materialisable event. -/
theorem next_device_ok (ev : ReceivedEventArgs)
    (rest : List ReceivedEventArgs) (kind : BleAddressKind)
    (h : ev.advType ≠ .NonConnectableUndirected)
    (hk : BleAddressKind.tryFrom ev.addrType = .ok kind)
    (hm : ev.materializeOk = true) :
    next_device (ev :: rest) =
      (.ok { addr := { value := ev.address, kind := kind },
             service_data := ev.serviceData,
             nameRes := ev.nameRes }, rest) := by
  rw [next_device]; simp [h, hk, hm]

/-- `next_device` skips a connectable, parseable event whose
materialisation fails (with a diagnostic), continuing with the rest. -/
theorem next_device_nomat (ev : ReceivedEventArgs)
    (rest : List ReceivedEventArgs) (kind : BleAddressKind)
    (h : ev.advType ≠ .NonConnectableUndirected)
    (hk : BleAddressKind.tryFrom ev.addrType = .ok kind)
    (hm : ev.materializeOk = false) :
    next_device (ev :: rest) = next_device rest := by
  rw [next_device]; simp [h, hk, hm]

/-- Whether an `Except` value is a success. -/
def exceptOk {ε α : Type} : Except ε α → Bool
  | .ok _ => true
  | .error _ => false

/-- `exceptOk` characterisation. -/
theorem exceptOk_iff {ε α : Type} (e : Except ε α) :
    exceptOk e = true ↔ ∃ a, e = .ok a := by
  cases e <;> simp [exceptOk]

/-- Claim-side: the address kind an event's address parses to (the default
is irrelevant: only used where parsing succeeds). -/
def evKind (ev : ReceivedEventArgs) : BleAddressKind :=
  match BleAddressKind.tryFrom ev.addrType with
  | .ok k => k
  | .error _ => .public

/-- Claim-side: the `Address` a catalogued event contributes. -/
def evAddr (ev : ReceivedEventArgs) : Address :=
  .ble { value := ev.address, kind := evKind ev }

/-- Claim-side (follows the claim's words): an advertisement event is
eligible for the catalogue iff it is connectable (not
non-connectable-undirected) and carries some service-data record with uuid
`0x2CFE`. -/
def eligible (ev : ReceivedEventArgs) : Bool :=
  if ev.advType = .NonConnectableUndirected then false
  else ev.serviceData.any (fun s => s.get_uuid = 0x2cfe)

/-- First-seen-wins deduplication relative to an already-seen set. -/
def firstSeenFrom (seen : List Address) : List Address → List Address
  | [] => []
  | a :: rest =>
      if a ∈ seen then firstSeenFrom seen rest
      else a :: firstSeenFrom (a :: seen) rest

/-- First-seen-wins deduplication: each address kept once, in first-seen
order. -/
def firstSeen (l : List Address) : List Address := firstSeenFrom [] l

/-- Claim-side (follows the claim's words): the catalogue an event sequence
should produce — the addresses of its eligible events, each exactly once, in
first-seen order. -/
def specCatalogue (events : List ReceivedEventArgs) : List Address :=
  firstSeen ((events.filter eligible).map evAddr)

/-- An event is benign for the discovery loop: either it is filtered out as
non-connectable, or its address kind parses, it materialises, and (when it
would be catalogued, i.e. carries a `0x2CFE` record) its name lookup
succeeds. -/
def wfEvent (ev : ReceivedEventArgs) : Bool :=
  if ev.advType = .NonConnectableUndirected then true
  else
    exceptOk (BleAddressKind.tryFrom ev.addrType) && ev.materializeOk &&
      (!(ev.serviceData.any (fun s => s.get_uuid = 0x2cfe)) ||
        exceptOk ev.nameRes)

/-- Master invariant of the discovery loop over benign events: it ends with
`Ok(())`, appends to the catalogue exactly the first-seen-deduplicated
addresses of the eligible events (relative to the already-seen set), and
advances the counter by the number of appended devices. -/
theorem discoveryLoop_invariant :
    ∀ (events : List ReceivedEventArgs) (st : LoopState),
      (∀ ev ∈ events, wfEvent ev = true) →
      (discoveryLoop st events).2 = .ok () ∧
      (discoveryLoop st events).1.device_vec.map BleDevice.address
        = st.device_vec.map BleDevice.address
          ++ firstSeenFrom st.addr_set ((events.filter eligible).map evAddr) ∧
      (discoveryLoop st events).1.counter
        = st.counter
          + (firstSeenFrom st.addr_set
              ((events.filter eligible).map evAddr)).length := by
  intro events
  induction events with
  | nil =>
      intro st _
      simp [discoveryLoop_nil, firstSeenFrom]
  | cons ev rest ih =>
      intro st hwf
      have hwfev : wfEvent ev = true := hwf ev (by simp)
      have hwfrest : ∀ e ∈ rest, wfEvent e = true := fun e he =>
        hwf e (List.mem_cons_of_mem _ he)
      by_cases hadv : ev.advType = .NonConnectableUndirected
      · have hstep : discoveryLoop st (ev :: rest) = discoveryLoop st rest := by
          rw [discoveryLoop_eq, next_device_nonconn ev rest hadv,
            ← discoveryLoop_eq]
        have helig : eligible ev = false := by simp [eligible, hadv]
        rw [hstep, List.filter_cons_of_neg (by simp [helig])]
        exact ih st hwfrest
      · rw [wfEvent, if_neg hadv] at hwfev
        simp only [Bool.and_eq_true, Bool.or_eq_true, Bool.not_eq_true'] at hwfev
        obtain ⟨⟨hko, hm⟩, hname⟩ := hwfev
        obtain ⟨k, hk⟩ := (exceptOk_iff _).mp hko
        have hek : evKind ev = k := by simp [evKind, hk]
        have hstep : discoveryLoop st (ev :: rest) =
            match processDevice st
              { addr := { value := ev.address, kind := k },
                service_data := ev.serviceData, nameRes := ev.nameRes } with
            | .error e => (st, .error e)
            | .ok st2 => discoveryLoop st2 rest := by
          rw [discoveryLoop_eq, next_device_ok ev rest k hadv hk hm]
        by_cases hsd : ev.serviceData.any (fun s => s.get_uuid = 0x2cfe) = true
        · have helig : eligible ev = true := by simp [eligible, hadv, hsd]
          have hnm : exceptOk ev.nameRes = true := by
            rcases hname with h | h
            · rw [hsd] at h; cases h
            · exact h
          obtain ⟨nm, hnmeq⟩ := (exceptOk_iff _).mp hnm
          rw [hnmeq] at hstep
          have haddr :
              BleDevice.address
                { addr := { value := ev.address, kind := k },
                  service_data := ev.serviceData, nameRes := .ok nm }
                = evAddr ev := by
            simp [BleDevice.address, evAddr, hek]
          rw [List.filter_cons_of_pos (by simp [helig])]
          by_cases hc : evAddr ev ∈ st.addr_set
          · have hproc : processDevice st
                { addr := { value := ev.address, kind := k },
                  service_data := ev.serviceData, nameRes := .ok nm }
                = .ok st := by
              rw [processDevice]
              simp [BleDevice.get_service_data, hsd, BleDevice.name,
                haddr, hc]
            rw [hstep, hproc]
            have hfs : firstSeenFrom st.addr_set
                (evAddr ev :: (rest.filter eligible).map evAddr)
                = firstSeenFrom st.addr_set ((rest.filter eligible).map evAddr) := by
              rw [firstSeenFrom, if_pos hc]
            simp only [List.map_cons, hfs]
            exact ih st hwfrest
          · have hproc : processDevice st
                { addr := { value := ev.address, kind := k },
                  service_data := ev.serviceData, nameRes := .ok nm }
                = .ok { addr_set := evAddr ev :: st.addr_set,
                        device_vec := st.device_vec ++
                          [{ addr := { value := ev.address, kind := k },
                             service_data := ev.serviceData,
                             nameRes := .ok nm }],
                        counter := st.counter + 1 } := by
              rw [processDevice]
              simp [BleDevice.get_service_data, hsd, BleDevice.name,
                haddr, hc]
            rw [hstep, hproc]
            have hfs : firstSeenFrom st.addr_set
                (evAddr ev :: (rest.filter eligible).map evAddr)
                = evAddr ev :: firstSeenFrom (evAddr ev :: st.addr_set)
                    ((rest.filter eligible).map evAddr) := by
              rw [firstSeenFrom, if_neg hc]
            simp only [List.map_cons, hfs]
            obtain ⟨h1, h2, h3⟩ := ih
              { addr_set := evAddr ev :: st.addr_set,
                device_vec := st.device_vec ++
                  [{ addr := { value := ev.address, kind := k },
                     service_data := ev.serviceData,
                     nameRes := .ok nm }],
                counter := st.counter + 1 } hwfrest
            refine ⟨h1, ?_, ?_⟩
            · rw [h2]
              simp [haddr]
            · rw [h3]
              simp [List.length_cons]
              omega
        · have helig : eligible ev = false := by simp [eligible, hadv, hsd]
          have hproc : processDevice st
              { addr := { value := ev.address, kind := k },
                service_data := ev.serviceData, nameRes := ev.nameRes }
              = .ok st := by
            rw [processDevice]
            simp [BleDevice.get_service_data, hsd]
          rw [hstep, hproc, List.filter_cons_of_neg (by simp [helig])]
          exact ih st hwfrest

/-- Once the owning sender is dropped, every native callback is a no-op on
the channel: a received event fails the weak-reference upgrade, and a
repeated stopped event drops an already-dropped sender. -/
theorem stepEvent_dead (c : Channel) (h : c.senderAlive = false)
    (e : NativeEvent) : stepEvent c e = c := by
  cases e with
  | received w args =>
      cases args with
      | none => simp [stepEvent, received_handler]
      | some ev => simp [stepEvent, received_handler, h]
  | stopped =>
      cases c
      simp_all [stepEvent, stopped_handler]

/-- A dead channel stays unchanged under any further native callbacks. -/
theorem runEvents_dead (evs : List NativeEvent) (c : Channel)
    (h : c.senderAlive = false) : runEvents c evs = c := by
  induction evs generalizing c with
  | nil => rfl
  | cons e tl ih =>
      show List.foldl stepEvent (stepEvent c e) tl = c
      rw [stepEvent_dead c h e]
      exact ih c h

/-- A concrete Classic device whose platform pairing facts say it is not
paired and cannot pair. -/
def cannotPairDevice : ClassicDevice :=
  { addr := { value := 0xAABBCCDDEE },
    pairing := { isPaired := false, canPair := false, pairStatus := .Failed },
    nameRes := .ok "headset" }

/-- C1: on a Classic device that is not already paired and reports that
pairing is not permitted (`CanPair` false), `ClassicDevice::pair` prints
"Device can't pair" but returns `Ok(())` — a success outcome, not the
rejection the spec describes. -/
theorem classic_pair_cannot_pair_returns_ok (d : ClassicDevice)
    (h1 : d.pairing.isPaired = false) (h2 : d.pairing.canPair = false) :
    ClassicDevice.pair d = (.ok (), ["Device can't pair"]) := by
  simp [ClassicDevice.pair, h1, h2]

/-- C1 witness: the behaviour at the concrete failing input. -/
theorem classic_pair_cannot_pair_returns_ok_witness :
    cannotPairDevice.pairing.isPaired = false ∧
    cannotPairDevice.pairing.canPair = false ∧
    ClassicDevice.pair cannotPairDevice = (.ok (), ["Device can't pair"]) :=
  ⟨rfl, rfl, classic_pair_cannot_pair_returns_ok cannotPairDevice rfl rfl⟩

/-- A connectable advertisement carrying the Fast Pair service uuid but an
`Unspecified` address type. -/
def badKindEvent : ReceivedEventArgs :=
  { advType := .ConnectableUndirected, addrType := .Unspecified, address := 1,
    serviceData := [{ uuid := 0x2cfe, data := [] }],
    materializeOk := true, nameRes := .ok "A" }

/-- C2 counterexample: for the one-event sequence `[badKindEvent]` — a
connectable advertisement carrying a `0x2CFE` record — the claim demands the
catalogue contain its address, but the `Unspecified` address type makes
`next_device` return an error, which ends the while-let loop: the resulting
catalogue is empty and differs from the claimed one. -/
theorem discovery_catalogue_counterexample :
    (discoveryLoop LoopState.init [badKindEvent]).1.device_vec.map
        BleDevice.address
      ≠ specCatalogue [badKindEvent] := by
  have h1 : discoveryLoop LoopState.init [badKindEvent]
      = (LoopState.init, .ok ()) := by
    rw [discoveryLoop_eq,
      next_device_badkind badKindEvent []
        "Attempting to construct BleAddressKind with device advertising Unspecified address type."
        (by decide) rfl]
  rw [h1]
  decide

/-- C2 (amended): for every finite sequence of advertisement events each of
which is benign (non-connectable, or: parseable address kind, successful
materialisation, and — when it carries a `0x2CFE` record — a successful name
lookup), the discovery loop's catalogue is exactly the addresses of the
connectable events carrying some `0x2CFE` service-data record, each address
exactly once, in first-seen order, with the counter equal to the catalogue
size and the loop ending normally. -/
theorem discovery_catalogue_spec (events : List ReceivedEventArgs)
    (hwf : ∀ ev ∈ events, wfEvent ev = true) :
    (discoveryLoop LoopState.init events).1.device_vec.map BleDevice.address
      = specCatalogue events ∧
    (discoveryLoop LoopState.init events).1.counter
      = (discoveryLoop LoopState.init events).1.device_vec.length ∧
    (discoveryLoop LoopState.init events).2 = .ok () := by
  obtain ⟨h1, h2, h3⟩ := discoveryLoop_invariant events LoopState.init hwf
  refine ⟨?_, ?_, h1⟩
  · rw [h2]
    simp [LoopState.init, specCatalogue, firstSeen]
  · have hlen : (discoveryLoop LoopState.init events).1.device_vec.length
        = ((discoveryLoop LoopState.init events).1.device_vec.map
            BleDevice.address).length := by
      rw [List.length_map]
    rw [hlen, h2, h3]
    simp [LoopState.init, firstSeen]

/-- Four benign events with addresses A, B, A, C, all connectable and
carrying the Fast Pair uuid. -/
def eventA : ReceivedEventArgs :=
  { advType := .ConnectableUndirected, addrType := .Public, address := 0xA,
    serviceData := [{ uuid := 0x2cfe, data := [] }],
    materializeOk := true, nameRes := .ok "A" }

/-- Second sample event (address B). -/
def eventB : ReceivedEventArgs :=
  { advType := .ConnectableUndirected, addrType := .Public, address := 0xB,
    serviceData := [{ uuid := 0x2cfe, data := [] }],
    materializeOk := true, nameRes := .ok "B" }

/-- Third sample event (address C). -/
def eventC : ReceivedEventArgs :=
  { advType := .ConnectableUndirected, addrType := .Public, address := 0xC,
    serviceData := [{ uuid := 0x2cfe, data := [] }],
    materializeOk := true, nameRes := .ok "C" }

/-- C2 witness: the A, B, A, C sequence from the claim satisfies the
well-formedness hypothesis and the conclusion. -/
theorem discovery_catalogue_spec_witness :
    (∀ ev ∈ [eventA, eventB, eventA, eventC], wfEvent ev = true) ∧
    ((discoveryLoop LoopState.init [eventA, eventB, eventA, eventC]).1.device_vec.map
        BleDevice.address
      = specCatalogue [eventA, eventB, eventA, eventC] ∧
    (discoveryLoop LoopState.init [eventA, eventB, eventA, eventC]).1.counter
      = (discoveryLoop LoopState.init
          [eventA, eventB, eventA, eventC]).1.device_vec.length ∧
    (discoveryLoop LoopState.init [eventA, eventB, eventA, eventC]).2
      = .ok ()) :=
  ⟨by decide, discovery_catalogue_spec [eventA, eventB, eventA, eventC]
    (by decide)⟩

/-- C3: after the watcher's stopped event has fired (the stopped path drops
the owning sender), every later native event — in particular every late
received event — leaves the channel unchanged, so no further candidate is
ever delivered to the consumer; and the sender is indeed closed at that
point. -/
theorem late_received_events_dropped (c : Channel)
    (evs1 evs2 : List NativeEvent) :
    runEvents c (evs1 ++ .stopped :: evs2)
      = runEvents c (evs1 ++ [.stopped]) ∧
    (runEvents c (evs1 ++ [.stopped])).senderAlive = false := by
  have hsplit : runEvents c (evs1 ++ .stopped :: evs2)
      = runEvents (stepEvent (runEvents c evs1) .stopped) evs2 := by
    simp [runEvents, List.foldl_append]
  have hone : runEvents c (evs1 ++ [.stopped])
      = stepEvent (runEvents c evs1) .stopped := by
    simp [runEvents, List.foldl_append]
  have hdead : (stepEvent (runEvents c evs1) .stopped).senderAlive = false :=
    rfl
  constructor
  · rw [hsplit, hone, runEvents_dead evs2 _ hdead]
  · rw [hone]
    exact hdead

/-- A fresh adapter that has not started scanning. -/
def freshAdapter : BleAdapter :=
  { isExtendedAdvertisingSupported := false, listener := none }

/-- C4 counterexample: calling `start_scan` twice in a row on a fresh
adapter succeeds the second time too — there is no `AlreadyScanning`
error. -/
theorem start_scan_twice_counterexample :
    (BleAdapter.start_scan (BleAdapter.start_scan freshAdapter).2).1
      = .ok () := rfl

/-- C4 (amended): `start_scan` always succeeds, installing a fresh
watcher/listener that replaces any previous one (so a second start is a
silent replacement, not an `AlreadyScanning` error), while `stop_scan`
without a prior start returns the error "Device scanning hasn't
started." -/
theorem start_stop_guard_behavior (a : BleAdapter) :
    (a.start_scan.1 = .ok () ∧
      a.start_scan.2.listener = some { channel := Channel.new }) ∧
    (a.listener = none →
      a.stop_scan = (.error "Device scanning hasn't started.", a)) := by
  refine ⟨⟨rfl, rfl⟩, fun h => ?_⟩
  simp [BleAdapter.stop_scan, h]

/-- C4 witness: the stop-without-start error at a concrete adapter. -/
theorem start_stop_guard_behavior_witness :
    freshAdapter.listener = none ∧
    freshAdapter.stop_scan
      = (.error "Device scanning hasn't started.", freshAdapter) :=
  ⟨rfl, (start_stop_guard_behavior freshAdapter).2 rfl⟩

/-- A connectable advertisement with a valid address whose device
materialisation fails. -/
def noMatEvent : ReceivedEventArgs :=
  { advType := .ConnectableUndirected, addrType := .Public, address := 5,
    serviceData := [], materializeOk := false, nameRes := .ok "x" }

/-- A benign connectable advertisement following a malformed one. -/
def goodAfterBadEvent : ReceivedEventArgs :=
  { advType := .ConnectableUndirected, addrType := .Public, address := 6,
    serviceData := [], materializeOk := true, nameRes := .ok "y" }

/-- C5 counterexample: with an `Unspecified`-address-type event followed by
a benign event, `next_device` does not skip to the benign event: it returns
the parse error (the `?` operator propagates it), so a single bad event does
end that call — and, in `main`'s while-let loop, discovery — instead of
being skipped. -/
theorem next_device_badkind_counterexample :
    next_device [badKindEvent, goodAfterBadEvent]
      = (.error "Attempting to construct BleAddressKind with device advertising Unspecified address type.",
         [goodAfterBadEvent]) ∧
    discoveryLoop LoopState.init [badKindEvent, goodAfterBadEvent]
      = (LoopState.init, .ok ()) := by
  constructor
  · exact next_device_badkind badKindEvent [goodAfterBadEvent] _
      (by decide) rfl
  · rw [discoveryLoop_eq,
      next_device_badkind badKindEvent [goodAfterBadEvent]
        "Attempting to construct BleAddressKind with device advertising Unspecified address type."
        (by decide) rfl]

/-- C5 (amended): `next_device` skips an event whose device materialisation
fails (with a diagnostic) and continues with the next event, and likewise
skips non-connectable advertisements; but an event whose address type is
`Unspecified` or unrecognized makes `next_device` return an error (ending
that call rather than skipping to the next event). -/
theorem next_device_error_handling (ev : ReceivedEventArgs)
    (rest : List ReceivedEventArgs) :
    (∀ kind, ev.advType ≠ .NonConnectableUndirected →
      BleAddressKind.tryFrom ev.addrType = .ok kind →
      ev.materializeOk = false →
      next_device (ev :: rest) = next_device rest) ∧
    (ev.advType = .NonConnectableUndirected →
      next_device (ev :: rest) = next_device rest) ∧
    (∀ e, ev.advType ≠ .NonConnectableUndirected →
      BleAddressKind.tryFrom ev.addrType = .error e →
      next_device (ev :: rest) = (.error e, rest)) :=
  ⟨fun kind h hk hm => next_device_nomat ev rest kind h hk hm,
   fun h => next_device_nonconn ev rest h,
   fun e h hk => next_device_badkind ev rest e h hk⟩

/-- C5 witness: a materialisation failure is skipped at a concrete input,
and a bad address kind errors at a concrete input. -/
theorem next_device_error_handling_witness :
    (BleAddressKind.tryFrom noMatEvent.addrType = .ok .public ∧
      noMatEvent.materializeOk = false ∧
      next_device [noMatEvent, goodAfterBadEvent]
        = next_device [goodAfterBadEvent]) ∧
    (BleAddressKind.tryFrom badKindEvent.addrType
        = .error "Attempting to construct BleAddressKind with device advertising Unspecified address type." ∧
      next_device [badKindEvent]
        = (.error "Attempting to construct BleAddressKind with device advertising Unspecified address type.",
           [])) :=
  ⟨⟨rfl, rfl,
    (next_device_error_handling noMatEvent [goodAfterBadEvent]).1 .public
      (by decide) rfl rfl⟩,
   ⟨rfl,
    (next_device_error_handling badKindEvent []).2.2 _ (by decide) rfl⟩⟩

/-- C6: the terminal-status classification maps `Paired` and `AlreadyPaired`
— and only those — to success, and every other status to the failure value
carrying that status. -/
theorem pairing_status_mapping (s : DevicePairingResultStatus) :
    (mapPairingStatus s = .ok () ↔ s = .Paired ∨ s = .AlreadyPaired) ∧
    (s ≠ .Paired → s ≠ .AlreadyPaired →
      mapPairingStatus s = .error (.pairingFailed s)) := by
  cases s <;> simp [mapPairingStatus]

/-- C6 witness: the mapping at a concrete non-success status. -/
theorem pairing_status_mapping_witness :
    mapPairingStatus .ConnectionRejected
      = .error (.pairingFailed .ConnectionRejected) :=
  (pairing_status_mapping .ConnectionRejected).2 (by decide) (by decide)

/-- C7: the registered challenge handler accepts a `ConfirmOnly` challenge;
for any other kind it does not accept but records the unsupported kind and
returns normally (no throw), and any terminal status other than
`Paired`/`AlreadyPaired` then classifies as the rejection carrying that
status. -/
theorem pairing_challenge_handling (k : DevicePairingKinds) :
    pairingRequestedHandler (some { pairingKind := .ConfirmOnly })
      = .accepted ∧
    (k ≠ .ConfirmOnly →
      pairingRequestedHandler (some { pairingKind := k })
        = .ignoredUnsupported k) ∧
    (∀ s : DevicePairingResultStatus, s ≠ .Paired → s ≠ .AlreadyPaired →
      mapPairingStatus s = .error (.pairingFailed s)) := by
  refine ⟨rfl, fun hk => ?_, fun s h1 h2 => ?_⟩
  · cases k <;> simp [pairingRequestedHandler] <;> simp at hk
  · cases s <;> simp_all [mapPairingStatus]

/-- C7 witness: a `ProvidePin` challenge is not accepted, and a concrete
non-success status maps to the rejection. -/
theorem pairing_challenge_handling_witness :
    pairingRequestedHandler (some { pairingKind := .ProvidePin })
      = .ignoredUnsupported .ProvidePin ∧
    mapPairingStatus .Failed = .error (.pairingFailed .Failed) :=
  ⟨(pairing_challenge_handling .ProvidePin).2.1 (by decide),
   (pairing_challenge_handling .ProvidePin).2.2 .Failed (by decide)
     (by decide)⟩

/-- C8 counterexample: at a concrete Classic device, `get_service_data`
panics (`unimplemented!`) instead of returning a typed "unsupported"
value. -/
theorem classic_service_data_counterexample :
    ClassicDevice.get_service_data cannotPairDevice
      = .panics "Service data is currently unsupported for Classic devices." :=
  rfl

/-- C8 (amended): calling `get_service_data` on the Classic-identity
variant always panics with the `unimplemented!` message "Service data is
currently unsupported for Classic devices."; it never returns a value. -/
theorem classic_service_data_panics (d : ClassicDevice) :
    ClassicDevice.get_service_data d
      = .panics "Service data is currently unsupported for Classic devices." ∧
    ∀ v, ClassicDevice.get_service_data d ≠ .returns v := by
  refine ⟨rfl, fun v h => ?_⟩
  simp [ClassicDevice.get_service_data] at h

/-- A benign catalogued-eligible event whose device's name lookup fails. -/
def nameFailEvent : ReceivedEventArgs :=
  { advType := .ConnectableUndirected, addrType := .Public, address := 7,
    serviceData := [{ uuid := 0x2cfe, data := [] }],
    materializeOk := true, nameRes := .error "name lookup failed" }

/-- C9 counterexample: a name-lookup failure on the first candidate aborts
the whole discovery loop with that error — the second, benign candidate is
never catalogued. -/
theorem name_failure_aborts_counterexample :
    discoveryLoop LoopState.init [nameFailEvent, eventB]
      = (LoopState.init, .error "name lookup failed") := by
  rw [discoveryLoop_eq,
    next_device_ok nameFailEvent [eventB] .public (by decide) rfl rfl]
  have hproc : processDevice LoopState.init
      { addr := { value := nameFailEvent.address, kind := .public },
        service_data := nameFailEvent.serviceData,
        nameRes := nameFailEvent.nameRes }
      = .error "name lookup failed" := by
    rw [processDevice]
    simp [BleDevice.get_service_data, BleDevice.name, nameFailEvent,
      ServiceData.get_uuid]
  simp [hproc]

/-- C9 (amended): when a discovered candidate carries the Fast Pair uuid
but its name lookup fails, the discovery loop aborts with that error (the
`?` operator propagates it out of `run`): subsequent events are never
processed. -/
theorem name_failure_aborts (st : LoopState) (ev : ReceivedEventArgs)
    (rest : List ReceivedEventArgs) (kind : BleAddressKind) (e : String)
    (hadv : ev.advType ≠ .NonConnectableUndirected)
    (hk : BleAddressKind.tryFrom ev.addrType = .ok kind)
    (hm : ev.materializeOk = true)
    (hsd : ev.serviceData.any (fun s => s.get_uuid = 0x2cfe) = true)
    (hn : ev.nameRes = .error e) :
    discoveryLoop st (ev :: rest) = (st, .error e) := by
  rw [discoveryLoop_eq, next_device_ok ev rest kind hadv hk hm]
  have hproc : processDevice st
      { addr := { value := ev.address, kind := kind },
        service_data := ev.serviceData, nameRes := ev.nameRes }
      = .error e := by
    rw [processDevice]
    simp [BleDevice.get_service_data, hsd, BleDevice.name, hn]
  simp [hproc]

/-- C9 witness: the abort at a concrete input. -/
theorem name_failure_aborts_witness :
    nameFailEvent.advType ≠ .NonConnectableUndirected ∧
    BleAddressKind.tryFrom nameFailEvent.addrType = .ok .public ∧
    nameFailEvent.materializeOk = true ∧
    nameFailEvent.serviceData.any (fun s => s.get_uuid = 0x2cfe) = true ∧
    nameFailEvent.nameRes = .error "name lookup failed" ∧
    discoveryLoop LoopState.init [nameFailEvent, eventC]
      = (LoopState.init, .error "name lookup failed") :=
  ⟨by decide, rfl, rfl, by decide, rfl,
   name_failure_aborts LoopState.init nameFailEvent [eventC] .public
     "name lookup failed" (by decide) rfl rfl (by decide) rfl⟩

/-- C10: `BleDevice::pair` panics with the `unimplemented!` message "BLE
Pairing is currently unsupported." for every BLE device; it never returns a
pairing outcome or a typed error. -/
theorem ble_pair_always_panics (d : BleDevice) :
    BleDevice.pair d = .panics "BLE Pairing is currently unsupported." ∧
    ∀ r, BleDevice.pair d ≠ .returns r := by
  refine ⟨rfl, fun r h => ?_⟩
  simp [BleDevice.pair] at h

end Nearby
